import Mathlib

/-!
Verification development for the `instagram_monitor` repository.

The definitions below are a shallow embedding of the parts of
`src/monitor.py` that the verified properties talk about:

* `detect_changes` (monitor.py lines 123-153) over Python-style dicts,
* the acquisition fallback and persistence phase of
  `fetch_enhanced_profile_data` (monitor.py lines 541-747),
* `write_json_atomic` (monitor.py lines 66-71) as a crash-step machine,
* the handle normalization of `main` (monitor.py lines 1060-1063).

Python dynamic values are modelled by `PyVal` (restricted to the value
shapes the program actually stores in these dicts: `None`, booleans,
integers and strings); Python dicts by association lists; a Python
`TypeError` by the `Except` error branch.
-/

/-- Python values as stored in the JSON-shaped dicts of monitor.py. -/
inductive PyVal where
  | none
  | bool (b : Bool)
  | int (n : Int)
  | str (s : String)
deriving DecidableEq, Repr

/-- A Python dict with string keys (insertion-ordered association list). -/
abbrev PyDict := List (String × PyVal)

/-- Python exceptions that the embedded code can raise. -/
inductive PyErr where
  | typeError
deriving DecidableEq, Repr

/-- `d.get(k, dflt)`: first binding of `k`, else the default. -/
def pyGet (d : PyDict) (k : String) (dflt : PyVal) : PyVal :=
  match d.find? (fun kv => kv.1 == k) with
  | some kv => kv.2
  | Option.none => dflt

/-- Numeric view of a Python value: `bool` is an `int` subclass in Python. -/
def pyToIntNum : PyVal → Option Int
  | PyVal.int n => some n
  | PyVal.bool b => some (if b then 1 else 0)
  | _ => Option.none

/-- Python `==` on the modelled values (numeric cross-type equality included). -/
def pyEq (a b : PyVal) : Bool :=
  match pyToIntNum a, pyToIntNum b with
  | some m, some n => m == n
  | _, _ =>
    match a, b with
    | PyVal.str s, PyVal.str t => s == t
    | PyVal.none, PyVal.none => true
    | _, _ => false

/-- Python `!=`. -/
def pyNe (a b : PyVal) : Bool := !pyEq a b

/-- Group a digit list (least-significant first) into blocks of three. -/
def group3 : List Char → List (List Char)
  | [] => []
  | [a] => [[a]]
  | [a, b] => [[a, b]]
  | a :: b :: c :: rest => [a, b, c] :: group3 rest

/-- Python `f"{n:,}"` for a natural number: thousands separators. -/
def natComma (n : Nat) : String :=
  ⟨List.intercalate [','] (((group3 (Nat.repr n).data.reverse).map List.reverse).reverse)⟩

/-- Python `f"{n:,}"` for an integer. -/
def intComma (n : Int) : String :=
  if n < 0 then ⟨'-' :: (natComma n.natAbs).data⟩ else natComma n.natAbs

/-- Python `f"{n:+,}"` for an integer: explicit sign, thousands separators. -/
def intPlusComma (n : Int) : String :=
  ⟨(if n < 0 then '-' else '+') :: (natComma n.natAbs).data⟩

/-- The `changes` dict built by `detect_changes` (monitor.py lines 125-129). -/
structure Changes where
  has_changes : Bool
  changes_detected : List String
  timestamp : String
deriving DecidableEq, Repr

/-- The numeric field/label pairs of monitor.py line 137. -/
def numericFields : List (String × String) :=
  [("followers", "Followers"), ("following", "Following"), ("posts", "Posts")]

/-- The text field/label pairs of monitor.py line 146. -/
def textFields : List (String × String) :=
  [("bio", "Bio"), ("full_name", "Display name")]

/-- One iteration of the numeric loop of `detect_changes`
(monitor.py lines 137-143); `new_val - old_val` raises a Python
`TypeError` when either side is not numeric. -/
def numStep (current historical : PyDict) (acc : Changes) (fl : String × String) :
    Except PyErr Changes :=
  let old_val := pyGet historical fl.1 (PyVal.int 0)
  let new_val := pyGet current fl.1 (PyVal.int 0)
  if pyNe new_val old_val then
    match pyToIntNum new_val, pyToIntNum old_val with
    | some n, some o =>
        Except.ok
          { has_changes := true,
            changes_detected := acc.changes_detected ++
              [fl.2 ++ ": " ++ intComma o ++ " → " ++ intComma n ++
                " (" ++ intPlusComma (n - o) ++ ")"],
            timestamp := acc.timestamp }
    | _, _ => Except.error PyErr.typeError
  else Except.ok acc

/-- One iteration of the text loop of `detect_changes` (monitor.py lines 146-151). -/
def textStep (current historical : PyDict) (acc : Changes) (fl : String × String) : Changes :=
  let old_val := pyGet historical fl.1 (PyVal.str "")
  let new_val := pyGet current fl.1 (PyVal.str "")
  if pyNe new_val old_val then
    { has_changes := true,
      changes_detected := acc.changes_detected ++ [fl.2 ++ " changed"],
      timestamp := acc.timestamp }
  else acc

/-- The numeric `for` loop of `detect_changes`, propagating a raised `TypeError`. -/
def runNumSteps (current historical : PyDict) :
    Changes → List (String × String) → Except PyErr Changes
  | acc, [] => Except.ok acc
  | acc, fl :: rest =>
    match numStep current historical acc fl with
    | Except.error e => Except.error e
    | Except.ok acc2 => runNumSteps current historical acc2 rest

/-- The text `for` loop of `detect_changes`. -/
def runTextSteps (current historical : PyDict) :
    Changes → List (String × String) → Changes
  | acc, [] => acc
  | acc, fl :: rest => runTextSteps current historical (textStep current historical acc fl) rest

/-- `detect_changes(current_data, historical_data)` (monitor.py lines 123-153).
`datetime.now()` is passed in as `now`; an empty dict is falsy in Python, so
`if not historical_data` is `historical.isEmpty`. -/
def detectChanges (now : String) (current historical : PyDict) : Except PyErr Changes :=
  if historical.isEmpty then
    Except.ok
      { has_changes := true,
        changes_detected := ["First time monitoring this user"],
        timestamp := now }
  else
    match runNumSteps current historical
        { has_changes := false, changes_detected := [], timestamp := now } numericFields with
    | Except.error e => Except.error e
    | Except.ok c1 => Except.ok (runTextSteps current historical c1 textFields)

/-- Per-field descriptor of the numeric comparison: the zero-or-one
descriptors `detect_changes` emits for one numeric field (spec-side
decomposition used to state the descriptor-ordering property). -/
def numDesc (current historical : PyDict) (fl : String × String) :
    Except PyErr (List String) :=
  let old_val := pyGet historical fl.1 (PyVal.int 0)
  let new_val := pyGet current fl.1 (PyVal.int 0)
  if pyNe new_val old_val then
    match pyToIntNum new_val, pyToIntNum old_val with
    | some n, some o =>
        Except.ok
          [fl.2 ++ ": " ++ intComma o ++ " → " ++ intComma n ++
            " (" ++ intPlusComma (n - o) ++ ")"]
    | _, _ => Except.error PyErr.typeError
  else Except.ok []

/-- Per-field descriptor of the text comparison. -/
def textDesc (current historical : PyDict) (fl : String × String) : List String :=
  if pyNe (pyGet current fl.1 (PyVal.str "")) (pyGet historical fl.1 (PyVal.str "")) then
    [fl.2 ++ " changed"]
  else []

/-- The strategy-agnostic profile data dict built by
`try_authenticated_method` / `try_anonymous_method` / the fallback literal
(monitor.py lines 368-381, 403-416, 574-588); `error` is set only by the
fallback literal.  The live `profile_object` is tracked separately by the
run model. -/
structure Snapshot where
  username : String
  full_name : String
  followers : Int
  following : Int
  posts : Int
  bio : String
  is_private : Bool
  is_verified : Bool
  profile_pic_url : String
  profile_pic_url_hd : String
  method : String
  error : Option String
deriving DecidableEq, Repr

/-- The degraded placeholder dict of monitor.py lines 574-588. -/
def fallbackSnapshot (target_user : String) : Snapshot :=
  { username := target_user,
    full_name := target_user,
    followers := 0,
    following := 0,
    posts := 0,
    bio := "",
    is_private := true,
    is_verified := false,
    profile_pic_url := "",
    profile_pic_url_hd := "",
    method := "fallback",
    error := some "Unable to access profile data" }

/-- `current_data` as passed to `detect_changes` (monitor.py lines 592-600):
the strategy dict plus `timestamp`, `profile_url` and
`data_collection_method`, with `profile_object` popped. -/
def snapshotToDict (s : Snapshot) (now target_user : String) : PyDict :=
  [("username", PyVal.str s.username),
   ("full_name", PyVal.str s.full_name),
   ("followers", PyVal.int s.followers),
   ("following", PyVal.int s.following),
   ("posts", PyVal.int s.posts),
   ("bio", PyVal.str s.bio),
   ("is_private", PyVal.bool s.is_private),
   ("is_verified", PyVal.bool s.is_verified),
   ("profile_pic_url", PyVal.str s.profile_pic_url),
   ("profile_pic_url_hd", PyVal.str s.profile_pic_url_hd),
   ("method", PyVal.str s.method)] ++
  (match s.error with
   | some e => [("error", PyVal.str e)]
   | Option.none => []) ++
  [("timestamp", PyVal.str now),
   ("profile_url", PyVal.str ("https://instagram.com/" ++ target_user)),
   ("data_collection_method", PyVal.str s.method)]

/-- The `quick_stats` dict of monitor.py lines 666-679, key for key in
construction order (note `full_name` and `bio` at the end). -/
def quickStatsDict (s : Snapshot) (now : String) : PyDict :=
  [("username", PyVal.str s.username),
   ("followers", PyVal.int s.followers),
   ("following", PyVal.int s.following),
   ("posts", PyVal.int s.posts),
   ("last_updated", PyVal.str now),
   ("is_private", PyVal.bool s.is_private),
   ("is_verified", PyVal.bool s.is_verified),
   ("method", PyVal.str s.method),
   ("profile_pic_url", PyVal.str s.profile_pic_url),
   ("profile_pic_url_hd", PyVal.str s.profile_pic_url_hd),
   ("full_name", PyVal.str s.full_name),
   ("bio", PyVal.str s.bio)]

/-- One entry of `monitoring_history.json` (monitor.py lines 685-692). -/
structure HistoryEntry where
  timestamp : String
  followers : Int
  following : Int
  posts : Int
  is_private : Bool
  method : String
deriving DecidableEq, Repr

/-- The `monitoring_history.json` document (monitor.py lines 560, 693-696). -/
structure HistoryFile where
  username : String
  entries : List HistoryEntry
  last_updated : Option String
deriving DecidableEq, Repr

/-- The `monitoring_summary.json` document: `current_data` with the final
`changes` object embedded (monitor.py lines 592-604, 682). -/
structure SummaryOut where
  data : Snapshot
  timestamp : String
  profile_url : String
  data_collection_method : String
  changes : Changes
deriving DecidableEq, Repr

/-- The artifacts one run persists, plus the boolean the function returns. -/
structure RunOutput where
  stats : PyDict
  summary : SummaryOut
  history : HistoryFile
  changesLog : Option (List Changes)
  success : Bool
deriving Repr

/-- Python `lst[-int(n):]`: for `n > 0` the last `n` elements, for `n = 0`
the whole list (`lst[-0:]` is `lst[0:]`), for `n < 0` it is `lst[(-n):]`. -/
def pyTailSlice (n : Int) (l : List α) : List α :=
  if 0 < n then l.drop (l.length - n.toNat) else l.drop (-n).toNat

/-- Module-level `SHOW_FRIENDS_LIST` (monitor.py line 48; `--friends` can
only set it to `True`). -/
def showFriendsList : Bool := true

/-- The `or` chain of monitor.py lines 571-589: first successful strategy
result, else the degraded fallback dict. -/
def chooseProfile (auth anon : Option Snapshot) (target_user : String) : Snapshot :=
  match auth with
  | some d => d
  | Option.none =>
    match anon with
    | some d => d
    | Option.none => fallbackSnapshot target_user

/-- The final `changes` object after the friends-list section may have
appended its descriptors (monitor.py lines 607-663): it runs only when
`SHOW_FRIENDS_LIST` is on, a live `profile_object` exists and the profile
is not private, and it sets `has_changes` whenever it appends. -/
def applyFriendEntries (auth anon : Option Snapshot) (target_user : String)
    (friendEntries : List String) (changes0 : Changes) : Changes :=
  if showFriendsList && (auth.isSome || anon.isSome) &&
      !(chooseProfile auth anon target_user).is_private && !friendEntries.isEmpty then
    { has_changes := true,
      changes_detected := changes0.changes_detected ++ friendEntries,
      timestamp := changes0.timestamp }
  else changes0

/-- The per-run core of `fetch_enhanced_profile_data`
(monitor.py lines 541-747) as a pure state transition.

* `auth` / `anon` are the results of `try_authenticated_method` /
  `try_anonymous_method` (`Option.none` = the strategy returned `None`);
  the `or` chain of lines 571-589 falls back to the degraded snapshot and
  `profile_object` is `None` exactly when both strategies failed.
* `friendEntries` abstracts the descriptors the friends-list section
  (monitor.py lines 607-663) appends, see `applyFriendEntries`; its
  separate `friend_changes_log.json` artifact is outside the modelled
  claims.
* `priorSummary`, `priorHistory`, `priorChangesLog` are the previously
  persisted file contents (defaults when the files are absent).
* A Python exception raised by `detect_changes` propagates out of the
  function, hence the `Except` result. -/
def runMonitor (auth anon : Option Snapshot) (friendEntries : List String)
    (target_user now : String) (priorSummary : PyDict) (priorHistory : HistoryFile)
    (history_keep : Int) (priorChangesLog : List Changes) : Except PyErr RunOutput :=
  match detectChanges now
      (snapshotToDict (chooseProfile auth anon target_user) now target_user) priorSummary with
  | Except.error e => Except.error e
  | Except.ok changes0 =>
    Except.ok
      { stats := quickStatsDict (chooseProfile auth anon target_user) now,
        summary :=
          { data := chooseProfile auth anon target_user,
            timestamp := now,
            profile_url := "https://instagram.com/" ++ target_user,
            data_collection_method := (chooseProfile auth anon target_user).method,
            changes := applyFriendEntries auth anon target_user friendEntries changes0 },
        history :=
          { username := target_user,
            entries := pyTailSlice history_keep (priorHistory.entries ++
              [{ timestamp := now,
                 followers := (chooseProfile auth anon target_user).followers,
                 following := (chooseProfile auth anon target_user).following,
                 posts := (chooseProfile auth anon target_user).posts,
                 is_private := (chooseProfile auth anon target_user).is_private,
                 method := (chooseProfile auth anon target_user).method }]),
            last_updated := some now },
        changesLog :=
          if (applyFriendEntries auth anon target_user friendEntries changes0).has_changes then
            some (pyTailSlice 50 (priorChangesLog ++
              [applyFriendEntries auth anon target_user friendEntries changes0]))
          else Option.none,
        success := true }

/-- Lines 1101-1104 of `main`: process exit code from the boolean returned
by `fetch_enhanced_profile_data` (falling through to a normal exit 0). -/
def monitorExitCode (success : Bool) : Nat :=
  if success then 0 else 1

/-- Serialized content of one artifact file (abstract byte list). -/
abbrev FileContent := List Nat

/-- On-disk state of one artifact: the destination path and the `.tmp`
path used by `write_json_atomic` (monitor.py lines 66-71). -/
structure DiskFile where
  dest : Option FileContent
  tmp : Option FileContent
deriving DecidableEq, Repr

/-- Every intermediate on-disk state of `write_json_atomic(path, data)`
(monitor.py lines 66-71): initial state, tmp file opened (truncated),
each partial write of the serialized content to the tmp path, and the
final `tmp.replace(path)` rename.  A crash can happen after any of these
states. -/
def writeStates (data : FileContent) (f : DiskFile) : List DiskFile :=
  f :: { dest := f.dest, tmp := some [] } ::
    ((List.range data.length).map
        (fun i => { dest := f.dest, tmp := some (data.take (i + 1)) }) ++
      [{ dest := some data, tmp := Option.none }])

/-- The three per-handle artifact files of the persistence phase. -/
structure Disk3 where
  stats : DiskFile
  summary : DiskFile
  history : DiskFile
deriving DecidableEq, Repr

/-- All intermediate on-disk states of the persistence phase of
`fetch_enhanced_profile_data` (monitor.py lines 681, 682, 697):
`write_json_atomic` on `quick_stats.json`, then on
`monitoring_summary.json`, then on `monitoring_history.json`. -/
def persistStates (cs cm ch : FileContent) (d : Disk3) : List Disk3 :=
  ((writeStates cs d.stats).map
      (fun f => { stats := f, summary := d.summary, history := d.history })) ++
  ((writeStates cm d.summary).map
      (fun f => { stats := { dest := some cs, tmp := Option.none },
                  summary := f, history := d.history })) ++
  ((writeStates ch d.history).map
      (fun f => { stats := { dest := some cs, tmp := Option.none },
                  summary := { dest := some cm, tmp := Option.none },
                  history := f }))

/-- Python `str.isspace` characters that `str.strip()` removes (the ASCII
ones; handles in this program are ASCII). -/
def pyIsSpace (c : Char) : Bool :=
  c == ' ' || c == '\t' || c == '\n' || c == '\r' || c == '\x0b' || c == '\x0c'

/-- `str.strip()` on a character list: drop whitespace from both ends. -/
def pyStripList (l : List Char) : List Char :=
  ((l.dropWhile pyIsSpace).reverse.dropWhile pyIsSpace).reverse

/-- Does `pat` occur at the head of `l`? -/
def listStartsWith : List Char → List Char → Bool
  | [], _ => true
  | _ :: _, [] => false
  | a :: as, b :: bs => a == b && listStartsWith as bs

/-- Python `str.replace(old, new)` scan with explicit fuel (the fuel is
set to the string length, which the scan never exceeds). -/
def pyReplaceAux (old new : List Char) : Nat → List Char → List Char
  | _, [] => []
  | 0, l => l
  | Nat.succ fuel, c :: cs =>
    if !old.isEmpty && listStartsWith old (c :: cs) then
      new ++ pyReplaceAux old new fuel ((c :: cs).drop old.length)
    else
      c :: pyReplaceAux old new fuel cs

/-- Python `s.replace(old, new)` (for non-empty `old`, which is the only
use in monitor.py). -/
def pyReplace (s old new : String) : String :=
  ⟨pyReplaceAux old.data new.data s.data.length s.data⟩

/-- Python `s.strip()`. -/
def pyStrip (s : String) : String := ⟨pyStripList s.data⟩

/-- Line 1060 of `main`: `args.target_user.replace("@", "").strip()`. -/
def normalizeHandle (raw : String) : String := pyStrip (pyReplace raw "@" "")

/-- Lines 1060-1063 of `main`: `Option.none` models `sys.exit(1)` on an
empty normalized handle, before any monitoring I/O. -/
def singleUserGate (raw : String) : Option String :=
  let user := normalizeHandle raw
  if user = "" then Option.none else some user

/-- The normalizer exactly as claim C6 words it: strip a leading `@`,
strip surrounding whitespace, lowercase (spec-side definition used only
to compare against the code's behaviour). -/
def normalizeClaimed (raw : String) : String :=
  let noAt : List Char :=
    match raw.data with
    | '@' :: rest => rest
    | l => l
  ⟨(pyStripList noAt).map Char.toLower⟩

/-- The amended normalizer: remove every `@` and strip surrounding
whitespace, no lowercasing (stated independently of the `str.replace`
scan so that the equivalence below is not definitional). -/
def normalizeAmended (raw : String) : String :=
  ⟨pyStripList (raw.data.filter (fun c => c != '@'))⟩

/-- The exact field list claim C9 asserts for `quick_stats.json`
(spec-side definition used only to compare against the code). -/
def claimedQuickStatsFields : List String :=
  ["username", "followers", "following", "posts", "last_updated",
   "is_private", "is_verified", "method", "profile_pic_url", "profile_pic_url_hd"]

/-- A dict is numerically well-typed when the values it stores at the three
numeric keys (where present) are Python numbers (`int` or `bool`). -/
def numWellTyped (d : PyDict) : Prop :=
  ∀ fl ∈ numericFields, (pyToIntNum (pyGet d fl.1 (PyVal.int 0))).isSome = true

instance (d : PyDict) : Decidable (numWellTyped d) :=
  inferInstanceAs (Decidable
    (∀ fl ∈ numericFields, (pyToIntNum (pyGet d fl.1 (PyVal.int 0))).isSome = true))

example : natComma 1000 = "1,000" := by rfl
example : natComma 50 = "50" := by rfl
example : natComma 1234567 = "1,234,567" := by rfl
example : intPlusComma 50 = "+50" := by rfl
example : intPlusComma (-1234) = "-1,234" := by rfl

theorem list_isEmpty_append (l m : List α) :
    (l ++ m).isEmpty = (l.isEmpty && m.isEmpty) := by
  cases l <;> simp [List.isEmpty]

theorem numStep_eq (current historical : PyDict) (acc : Changes) (fl : String × String) :
    numStep current historical acc fl =
      (numDesc current historical fl).map (fun ds =>
        { has_changes := acc.has_changes || !ds.isEmpty,
          changes_detected := acc.changes_detected ++ ds,
          timestamp := acc.timestamp }) := by
  unfold numStep numDesc
  cases h : pyNe (pyGet current fl.1 (PyVal.int 0)) (pyGet historical fl.1 (PyVal.int 0))
  · simp [h, Except.map]
  · simp only [h, if_true]
    cases pyToIntNum (pyGet current fl.1 (PyVal.int 0)) <;>
      cases pyToIntNum (pyGet historical fl.1 (PyVal.int 0)) <;>
        simp [Except.map]

theorem textStep_eq (current historical : PyDict) (acc : Changes) (fl : String × String) :
    textStep current historical acc fl =
      { has_changes := acc.has_changes || !(textDesc current historical fl).isEmpty,
        changes_detected := acc.changes_detected ++ textDesc current historical fl,
        timestamp := acc.timestamp } := by
  unfold textStep textDesc
  cases h : pyNe (pyGet current fl.1 (PyVal.str "")) (pyGet historical fl.1 (PyVal.str "")) <;>
    simp [h]

/-- Characterization of `detect_changes` on a non-empty previous dict: the
result is exactly the ordered concatenation of the per-field descriptors
followers, following, posts, bio, display name, with `has_changes` true
iff any descriptor was emitted. -/
theorem detect_split (now : String) (current historical : PyDict)
    (hne : historical ≠ []) :
    detectChanges now current historical =
      Except.bind (numDesc current historical ("followers", "Followers")) (fun d1 =>
      Except.bind (numDesc current historical ("following", "Following")) (fun d2 =>
      Except.bind (numDesc current historical ("posts", "Posts")) (fun d3 =>
      Except.ok
        { has_changes :=
            !(d1 ++ d2 ++ d3 ++ textDesc current historical ("bio", "Bio") ++
              textDesc current historical ("full_name", "Display name")).isEmpty,
          changes_detected :=
            d1 ++ d2 ++ d3 ++ textDesc current historical ("bio", "Bio") ++
              textDesc current historical ("full_name", "Display name"),
          timestamp := now }))) := by
  have hE : historical.isEmpty = false := by
    cases historical
    · exact absurd rfl hne
    · rfl
  unfold detectChanges
  rw [hE]
  simp only [Bool.false_eq_true, if_false, numericFields, textFields,
    runNumSteps, runTextSteps, numStep_eq, textStep_eq]
  rcases h1 : numDesc current historical ("followers", "Followers") with e1 | d1 <;>
    simp only [Except.map, Except.bind]
  rcases h2 : numDesc current historical ("following", "Following") with e2 | d2 <;>
    simp only [Except.map, Except.bind]
  rcases h3 : numDesc current historical ("posts", "Posts") with e3 | d3 <;>
    simp only [Except.map, Except.bind]
  simp [list_isEmpty_append, Bool.or_assoc, List.append_assoc]

theorem pyGet_snapDict_followers (s : Snapshot) (now target_user : String) (dflt : PyVal) :
    pyGet (snapshotToDict s now target_user) "followers" dflt = PyVal.int s.followers := rfl

theorem pyGet_snapDict_following (s : Snapshot) (now target_user : String) (dflt : PyVal) :
    pyGet (snapshotToDict s now target_user) "following" dflt = PyVal.int s.following := rfl

theorem pyGet_snapDict_posts (s : Snapshot) (now target_user : String) (dflt : PyVal) :
    pyGet (snapshotToDict s now target_user) "posts" dflt = PyVal.int s.posts := rfl

theorem pyGet_snapDict_bio (s : Snapshot) (now target_user : String) (dflt : PyVal) :
    pyGet (snapshotToDict s now target_user) "bio" dflt = PyVal.str s.bio := rfl

theorem pyGet_snapDict_full_name (s : Snapshot) (now target_user : String) (dflt : PyVal) :
    pyGet (snapshotToDict s now target_user) "full_name" dflt = PyVal.str s.full_name := rfl

theorem snapDict_ne_nil (s : Snapshot) (now target_user : String) :
    snapshotToDict s now target_user ≠ [] := by
  simp [snapshotToDict]

theorem pyTailSlice_of_pos (n : Int) (hn : 0 < n) (l : List α) :
    pyTailSlice n l = l.drop (l.length - n.toNat) := by
  unfold pyTailSlice
  rw [if_pos hn]

theorem pyTailSlice_singleton (n : Int) (hn : 0 ≤ n) (a : α) :
    pyTailSlice n [a] = [a] := by
  unfold pyTailSlice
  split
  · next h =>
    have : (1 : Nat) - n.toNat = 0 := by omega
    simp [this]
  · next h =>
    have : (-n).toNat = 0 := by omega
    simp [this]

theorem pyTailSlice_length_le (n : Int) (hn : 1 ≤ n) (l : List α) :
    (pyTailSlice n l).length ≤ n.toNat := by
  rw [pyTailSlice_of_pos n (by omega) l]
  simp only [List.length_drop]
  omega

theorem pyTailSlice_length_min (n : Int) (hn : 1 ≤ n) (l : List α) :
    (pyTailSlice n l).length = min n.toNat l.length := by
  rw [pyTailSlice_of_pos n (by omega) l]
  simp only [List.length_drop]
  omega

theorem writeStates_dest (data : FileContent) (f g : DiskFile)
    (hg : g ∈ writeStates data f) :
    g.dest = f.dest ∨ g.dest = some data := by
  simp only [writeStates, List.mem_cons, List.mem_append, List.mem_map,
    List.mem_range, List.mem_singleton, List.not_mem_nil, or_false] at hg
  rcases hg with rfl | rfl | ⟨i, _, rfl⟩ | rfl <;> simp

theorem pyReplaceAux_single (c : Char) (fuel : Nat) (l : List Char)
    (hfuel : l.length ≤ fuel) :
    pyReplaceAux [c] [] fuel l = l.filter (fun a => a != c) := by
  induction fuel generalizing l with
  | zero =>
    cases l with
    | nil => rfl
    | cons a as => simp at hfuel
  | succ fuel ih =>
    cases l with
    | nil => rfl
    | cons a as =>
      simp only [List.length_cons, Nat.add_le_add_iff_right] at hfuel
      by_cases hac : c = a
      · subst hac
        have hS : listStartsWith [c] (c :: as) = true := by
          simp [listStartsWith]
        simp only [pyReplaceAux, List.isEmpty, Bool.not_false, Bool.true_and, hS, if_true,
          List.length_singleton, List.drop_succ_cons, List.drop_zero, List.nil_append]
        rw [ih as hfuel]
        simp [List.filter]
      · have hS : listStartsWith [c] (a :: as) = false := by
          simp [listStartsWith]
          exact fun h => absurd h hac
        simp only [pyReplaceAux, List.isEmpty, Bool.not_false, Bool.true_and, hS,
          Bool.false_eq_true, if_false]
        rw [ih as hfuel]
        have : (a != c) = true := by
          simp
          exact fun h => absurd h.symm hac
        simp [List.filter, this]

theorem normalizeHandle_eq_amended (raw : String) :
    normalizeHandle raw = normalizeAmended raw := by
  unfold normalizeHandle normalizeAmended pyStrip pyReplace
  have : ("@" : String).data = ['@'] := rfl
  rw [this]
  have : ("" : String).data = [] := rfl
  rw [this]
  rw [pyReplaceAux_single '@' raw.data.length raw.data (le_refl _)]

theorem numDesc_ok_of_wellTyped (current historical : PyDict) (fl : String × String)
    (hc : (pyToIntNum (pyGet current fl.1 (PyVal.int 0))).isSome = true)
    (hh : (pyToIntNum (pyGet historical fl.1 (PyVal.int 0))).isSome = true) :
    ∃ ds, numDesc current historical fl = Except.ok ds := by
  unfold numDesc
  cases h : pyNe (pyGet current fl.1 (PyVal.int 0)) (pyGet historical fl.1 (PyVal.int 0))
  · exact ⟨[], by simp [h]⟩
  · rcases Option.isSome_iff_exists.mp hc with ⟨n, hn⟩
    rcases Option.isSome_iff_exists.mp hh with ⟨o, ho⟩
    refine ⟨[fl.2 ++ ": " ++ intComma o ++ " → " ++ intComma n ++
      " (" ++ intPlusComma (n - o) ++ ")"], ?_⟩
    simp only [h, if_true, hn, ho]
example :
    detectChanges "t" [("followers", PyVal.int 1050)] [("followers", PyVal.int 1000)] =
      Except.ok
        { has_changes := true,
          changes_detected := ["Followers: 1,000 → 1,050 (+50)"],
          timestamp := "t" } := by rfl
example :
    detectChanges "t" [("followers", PyVal.int 5)] [("followers", PyVal.str "oops")] =
      Except.error PyErr.typeError := by rfl
example :
    detectChanges "t" [("followers", PyVal.int 5)] [("garbage", PyVal.int 1)] =
      Except.ok
        { has_changes := true,
          changes_detected := ["Followers: 0 → 5 (+5)"],
          timestamp := "t" } := by rfl

theorem pyNe_self_int (n : Int) : pyNe (PyVal.int n) (PyVal.int n) = false := by
  simp [pyNe, pyEq, pyToIntNum]

theorem pyNe_self_str (a : String) : pyNe (PyVal.str a) (PyVal.str a) = false := by
  simp [pyNe, pyEq, pyToIntNum]

/-- C1: when both acquisition strategies fail and the handle has never been
seen (no prior summary, empty history ledger), the run persists the degraded
fallback snapshot (`method="fallback"`, zero counts, `is_private`, `error`
set), appends exactly one entry to the history ledger, and reports success
(process exit code 0). -/
theorem fallback_run_degraded (target_user now : String) (history_keep : Int)
    (hkeep : 0 ≤ history_keep) :
    ∃ out,
      runMonitor Option.none Option.none [] target_user now []
          { username := target_user, entries := [], last_updated := Option.none }
          history_keep [] = Except.ok out ∧
      out.summary.data.method = "fallback" ∧
      out.summary.data.followers = 0 ∧
      out.summary.data.following = 0 ∧
      out.summary.data.posts = 0 ∧
      out.summary.data.is_private = true ∧
      out.summary.data.error = some "Unable to access profile data" ∧
      out.history.entries =
        [{ timestamp := now, followers := 0, following := 0, posts := 0,
           is_private := true, method := "fallback" }] ∧
      out.success = true ∧
      monitorExitCode out.success = 0 := by
  refine ⟨_, rfl, rfl, rfl, rfl, rfl, rfl, rfl, ?_, rfl, rfl⟩
  show pyTailSlice history_keep ([] ++ [_]) = _
  rw [List.nil_append, pyTailSlice_singleton _ hkeep]
  rfl

theorem fallback_run_degraded_witness :
    ∃ out,
      runMonitor Option.none Option.none [] "someuser" "2024-01-01T00:00:00+00:00" []
          { username := "someuser", entries := [], last_updated := Option.none }
          100 [] = Except.ok out ∧
      out.summary.data.method = "fallback" ∧
      out.summary.data.followers = 0 ∧
      out.summary.data.following = 0 ∧
      out.summary.data.posts = 0 ∧
      out.summary.data.is_private = true ∧
      out.summary.data.error = some "Unable to access profile data" ∧
      out.history.entries =
        [{ timestamp := "2024-01-01T00:00:00+00:00", followers := 0, following := 0,
           posts := 0, is_private := true, method := "fallback" }] ∧
      out.success = true ∧
      monitorExitCode out.success = 0 :=
  fallback_run_degraded "someuser" "2024-01-01T00:00:00+00:00" 100 (by decide)

/-- C7: when the previous snapshot is absent (`historical_summary` is the
empty dict), `detect_changes` returns `has_changes=True` and exactly the
one synthetic first-observation descriptor. -/
theorem first_observation_single_entry (now : String) (current : PyDict) :
    detectChanges now current [] =
      Except.ok
        { has_changes := true,
          changes_detected := ["First time monitoring this user"],
          timestamp := now } := rfl

/-- C6 counterexample: the code's normalization (line 1060) neither
lowercases ("A@B" stays capitalized and loses its inner `@`) nor strips
only a leading `@`; moreover "@@" is rejected by the code although the
claim's normalization leaves it non-empty. -/
theorem normalize_handle_cx :
    normalizeHandle "A@B" ≠ normalizeClaimed "A@B" ∧
    normalizeHandle "ABC" ≠ normalizeClaimed "ABC" ∧
    singleUserGate "@@" = Option.none ∧
    normalizeClaimed "@@" ≠ "" := by
  exact ⟨by decide, by decide, rfl, by decide⟩

/-- C6 amended: normalization removes every `@` (not only a leading one)
and strips surrounding whitespace, without lowercasing; the single-user
path rejects (exit 1, before any monitoring I/O) exactly when this
normalized result is empty. -/
theorem normalize_handle_amended (raw : String) :
    normalizeHandle raw = normalizeAmended raw ∧
    (singleUserGate raw = Option.none ↔ normalizeHandle raw = "") := by
  refine ⟨normalizeHandle_eq_amended raw, ?_⟩
  by_cases h : normalizeHandle raw = "" <;> simp [singleUserGate, h]

/-- C4 counterexample: two snapshots that differ only in the privacy flag
produce no change descriptor at all — `detect_changes` never compares
`is_private`, so no "now private"/"now public" transition is emitted. -/
theorem privacy_flag_not_compared_cx :
    detectChanges "t" (snapshotToDict (fallbackSnapshot "u") "t0" "u")
        (snapshotToDict { fallbackSnapshot "u" with is_private := false } "t0" "u") =
      Except.ok { has_changes := false, changes_detected := [], timestamp := "t" } := by
  rfl

/-- C4 amended: with a previous snapshot present, `detect_changes` compares,
in this fixed order which determines descriptor order: followers (signed
delta), following (signed delta), posts (signed delta), biography (equality
only), display name (equality only) — and nothing else; in particular the
privacy flag is never compared, so snapshots differing only in the privacy
flag yield no descriptor and `has_changes=False`. -/
theorem detect_field_order_amended :
    (∀ now current historical, historical ≠ [] →
      detectChanges now current historical =
        Except.bind (numDesc current historical ("followers", "Followers")) (fun d1 =>
        Except.bind (numDesc current historical ("following", "Following")) (fun d2 =>
        Except.bind (numDesc current historical ("posts", "Posts")) (fun d3 =>
        Except.ok
          { has_changes :=
              !(d1 ++ d2 ++ d3 ++ textDesc current historical ("bio", "Bio") ++
                textDesc current historical ("full_name", "Display name")).isEmpty,
            changes_detected :=
              d1 ++ d2 ++ d3 ++ textDesc current historical ("bio", "Bio") ++
                textDesc current historical ("full_name", "Display name"),
            timestamp := now })))) ∧
    (∀ now now2 target_user (s : Snapshot) (p1 p2 : Bool),
      detectChanges now (snapshotToDict { s with is_private := p1 } now2 target_user)
          (snapshotToDict { s with is_private := p2 } now2 target_user) =
        Except.ok { has_changes := false, changes_detected := [], timestamp := now }) := by
  constructor
  · exact detect_split
  · intro now now2 target_user s p1 p2
    rw [detect_split _ _ _ (snapDict_ne_nil _ _ _)]
    simp [numDesc, textDesc, pyGet_snapDict_followers, pyGet_snapDict_following,
      pyGet_snapDict_posts, pyGet_snapDict_bio, pyGet_snapDict_full_name,
      pyNe_self_int, pyNe_self_str, Except.bind]

theorem detect_field_order_amended_witness :
    detectChanges "t" [("followers", PyVal.int 5)] [("posts", PyVal.int 2)] =
      Except.bind (numDesc [("followers", PyVal.int 5)] [("posts", PyVal.int 2)]
          ("followers", "Followers")) (fun d1 =>
      Except.bind (numDesc [("followers", PyVal.int 5)] [("posts", PyVal.int 2)]
          ("following", "Following")) (fun d2 =>
      Except.bind (numDesc [("followers", PyVal.int 5)] [("posts", PyVal.int 2)]
          ("posts", "Posts")) (fun d3 =>
      Except.ok
        { has_changes :=
            !(d1 ++ d2 ++ d3 ++
              textDesc [("followers", PyVal.int 5)] [("posts", PyVal.int 2)] ("bio", "Bio") ++
              textDesc [("followers", PyVal.int 5)] [("posts", PyVal.int 2)]
                ("full_name", "Display name")).isEmpty,
          changes_detected :=
            d1 ++ d2 ++ d3 ++
              textDesc [("followers", PyVal.int 5)] [("posts", PyVal.int 2)] ("bio", "Bio") ++
              textDesc [("followers", PyVal.int 5)] [("posts", PyVal.int 2)]
                ("full_name", "Display name"),
          timestamp := "t" }))) :=
  detect_field_order_amended.1 "t" _ _ (by decide)

/-- C5 counterexample: `detect_changes` raises a `TypeError` when the
previous dict stores a non-numeric value in a numeric field (so it can
fail), and a malformed non-empty previous dict (no expected keys) is
diffed against defaults instead of being treated as a first observation. -/
theorem detect_changes_raises_cx :
    detectChanges "t" [("followers", PyVal.int 5)] [("followers", PyVal.str "oops")] =
      Except.error PyErr.typeError ∧
    detectChanges "t" [("followers", PyVal.int 5)] [("garbage", PyVal.int 1)] =
      Except.ok
        { has_changes := true,
          changes_detected := ["Followers: 0 → 5 (+5)"],
          timestamp := "t" } ∧
    (["Followers: 0 → 5 (+5)"] : List String) ≠ ["First time monitoring this user"] :=
  ⟨rfl, rfl, by decide⟩

/-- C5 amended: `detect_changes` returns a ChangeSet without raising for
every current snapshot and every previous dict whose numeric-field values
are Python numbers where present (missing keys default to 0/""); previous
data that is absent or an empty dict yields the single synthetic
first-observation entry.  (A non-empty malformed dict is diffed against
defaults, not treated as a first observation, and a non-numeric value in
a differing numeric field raises `TypeError` — see the counterexample.) -/
theorem detect_changes_total_amended :
    (∀ now current historical, numWellTyped current → numWellTyped historical →
      ∃ ch, detectChanges now current historical = Except.ok ch) ∧
    (∀ now current, detectChanges now current [] =
      Except.ok
        { has_changes := true,
          changes_detected := ["First time monitoring this user"],
          timestamp := now }) := by
  constructor
  · intro now current historical hc hh
    by_cases hne : historical = []
    · subst hne
      exact ⟨_, rfl⟩
    · rw [detect_split now current historical hne]
      obtain ⟨d1, h1⟩ := numDesc_ok_of_wellTyped current historical ("followers", "Followers")
        (hc _ (by decide)) (hh _ (by decide))
      obtain ⟨d2, h2⟩ := numDesc_ok_of_wellTyped current historical ("following", "Following")
        (hc _ (by decide)) (hh _ (by decide))
      obtain ⟨d3, h3⟩ := numDesc_ok_of_wellTyped current historical ("posts", "Posts")
        (hc _ (by decide)) (hh _ (by decide))
      rw [h1, h2, h3]
      exact ⟨_, rfl⟩
  · intro now current
    rfl

theorem detect_changes_total_amended_witness :
    ∃ ch, detectChanges "t" [("followers", PyVal.int 5)] [("followers", PyVal.int 3)] =
      Except.ok ch :=
  detect_changes_total_amended.1 "t" _ _ (by decide) (by decide)

/-- If the overall detection succeeded and one numeric field emitted a
descriptor, that descriptor occurs in the resulting entries. -/
theorem mem_of_detect_ok (now : String) (current historical : PyDict) (ch : Changes)
    (hne : historical ≠ [])
    (h : detectChanges now current historical = Except.ok ch)
    (fl : String × String) (hfl : fl ∈ numericFields) (x : String)
    (hx : numDesc current historical fl = Except.ok [x]) :
    x ∈ ch.changes_detected := by
  rw [detect_split now current historical hne] at h
  rcases h1 : numDesc current historical ("followers", "Followers") with e1 | d1
  · rw [h1] at h
    exact absurd h (by simp [Except.bind])
  rw [h1] at h
  simp only [Except.bind] at h
  rcases h2 : numDesc current historical ("following", "Following") with e2 | d2
  · rw [h2] at h
    exact absurd h (by simp [Except.bind])
  rw [h2] at h
  simp only [Except.bind] at h
  rcases h3 : numDesc current historical ("posts", "Posts") with e3 | d3
  · rw [h3] at h
    exact absurd h (by simp [Except.bind])
  rw [h3] at h
  simp only [Except.bind, Except.ok.injEq] at h
  subst h
  simp only [numericFields, List.mem_cons, List.not_mem_nil, or_false] at hfl
  rcases hfl with rfl | rfl | rfl
  · rw [h1] at hx
    injection hx with hx
    subst hx
    simp
  · rw [h2] at hx
    injection hx with hx
    subst hx
    simp
  · rw [h3] at hx
    injection hx with hx
    subst hx
    simp

/-- C8: for each of the three integer fields, when the previous and current
values differ the emitted descriptor carries exactly the signed delta
`new - old`, rendered with an explicit leading sign that matches the
direction of the change. -/
theorem int_delta_descriptor (now : String) (current historical : PyDict)
    (fl : String × String) (hfl : fl ∈ numericFields) (o n : Int) (ch : Changes)
    (hne : historical ≠ [])
    (ho : pyGet historical fl.1 (PyVal.int 0) = PyVal.int o)
    (hn : pyGet current fl.1 (PyVal.int 0) = PyVal.int n)
    (hdiff : n ≠ o)
    (h : detectChanges now current historical = Except.ok ch) :
    (fl.2 ++ ": " ++ intComma o ++ " → " ++ intComma n ++
        " (" ++ intPlusComma (n - o) ++ ")") ∈ ch.changes_detected ∧
    (0 < n - o → (intPlusComma (n - o)).data.head? = some '+') ∧
    (n - o < 0 → (intPlusComma (n - o)).data.head? = some '-') := by
  have hfld : numDesc current historical fl =
      Except.ok [fl.2 ++ ": " ++ intComma o ++ " → " ++ intComma n ++
        " (" ++ intPlusComma (n - o) ++ ")"] := by
    have hx : pyNe (PyVal.int n) (PyVal.int o) = true := by
      simp [pyNe, pyEq, pyToIntNum, hdiff]
    simp only [numDesc, ho, hn, hx, if_true, pyToIntNum]
  refine ⟨mem_of_detect_ok now current historical ch hne h fl hfl _ hfld, ?_, ?_⟩
  · intro hpos
    unfold intPlusComma
    rw [if_neg (by omega)]
    rfl
  · intro hneg
    unfold intPlusComma
    rw [if_pos hneg]
    rfl

theorem int_delta_descriptor_witness :
    (("followers", "Followers").2 ++ ": " ++ intComma 1 ++ " → " ++ intComma 3 ++
        " (" ++ intPlusComma ((3 : Int) - 1) ++ ")") ∈
      (Changes.mk true ["Followers: 1 → 3 (+2)"] "t").changes_detected ∧
    (0 < (3 : Int) - 1 → (intPlusComma ((3 : Int) - 1)).data.head? = some '+') ∧
    ((3 : Int) - 1 < 0 → (intPlusComma ((3 : Int) - 1)).data.head? = some '-') :=
  int_delta_descriptor "t" [("followers", PyVal.int 3)] [("followers", PyVal.int 1)]
    ("followers", "Followers") (by decide) 1 3 (Changes.mk true ["Followers: 1 → 3 (+2)"] "t")
    (by decide) rfl rfl (by decide) rfl

/-- C3 counterexample: with retention count `N = 0`, the Python slice
`entries[-0:]` keeps the whole list, so a run on a one-entry ledger leaves
two entries persisted, violating `len(entries) <= N`. -/
theorem history_retention_cx :
    (runMonitor Option.none Option.none [] "u" "t" []
        { username := "u",
          entries := [{ timestamp := "t0", followers := 0, following := 0, posts := 0,
                        is_private := true, method := "fallback" }],
          last_updated := Option.none } 0 []).map
      (fun o => o.history.entries.length) = Except.ok 2 ∧
    ¬ (2 ≤ (0 : Int).toNat) :=
  ⟨rfl, by decide⟩

/-- C3 amended: for every retention count `N >= 1`, after a run appends its
history entry the persisted entries list has length at most `N` and consists
of exactly the most recent `min N (len+1)` entries in their original order
(oldest evicted first).  For `N = 0` the code keeps everything (Python
`[-0:]` is the whole list) and for negative `N` it drops from the front. -/
theorem history_retention_amended
    (auth anon : Option Snapshot) (friendEntries : List String)
    (target_user now : String) (priorSummary : PyDict) (priorHistory : HistoryFile)
    (history_keep : Int) (priorChangesLog : List Changes) (out : RunOutput)
    (hkeep : 1 ≤ history_keep)
    (h : runMonitor auth anon friendEntries target_user now priorSummary priorHistory
        history_keep priorChangesLog = Except.ok out) :
    out.history.entries.length ≤ history_keep.toNat ∧
    ∃ e, out.history.entries =
        (priorHistory.entries ++ [e]).drop
          (priorHistory.entries.length + 1 - history_keep.toNat) ∧
      out.history.entries.length = min history_keep.toNat (priorHistory.entries.length + 1) := by
  unfold runMonitor at h
  cases hdet : detectChanges now
      (snapshotToDict (chooseProfile auth anon target_user) now target_user) priorSummary with
  | error e =>
    rw [hdet] at h
    exact Except.noConfusion h
  | ok changes0 =>
    rw [hdet] at h
    rw [Except.ok.injEq] at h
    subst h
    dsimp only
    refine ⟨pyTailSlice_length_le _ hkeep _,
      ⟨{ timestamp := now,
         followers := (chooseProfile auth anon target_user).followers,
         following := (chooseProfile auth anon target_user).following,
         posts := (chooseProfile auth anon target_user).posts,
         is_private := (chooseProfile auth anon target_user).is_private,
         method := (chooseProfile auth anon target_user).method }, ?_, ?_⟩⟩
    · rw [pyTailSlice_of_pos _ (by omega)]
      congr 1
      simp
    · rw [pyTailSlice_length_min _ hkeep]
      simp

theorem history_retention_amended_witness :
    ∃ out,
      runMonitor Option.none Option.none [] "u" "t" []
          { username := "u",
            entries := [⟨"t0", 0, 0, 0, true, "fallback"⟩, ⟨"t1", 1, 1, 1, false, "anonymous_api"⟩,
                        ⟨"t2", 2, 2, 2, false, "anonymous_api"⟩],
            last_updated := Option.none } 3 [] = Except.ok out ∧
      out.history.entries.length ≤ (3 : Int).toNat :=
  ⟨_, rfl, (history_retention_amended Option.none Option.none [] "u" "t" []
    { username := "u",
      entries := [⟨"t0", 0, 0, 0, true, "fallback"⟩, ⟨"t1", 1, 1, 1, false, "anonymous_api"⟩,
                  ⟨"t2", 2, 2, 2, false, "anonymous_api"⟩],
      last_updated := Option.none } 3 [] _ (by decide) rfl).1⟩

/-- C9 counterexample: the persisted `quick_stats.json` projection also
contains `full_name` and `bio`, which are not among the ten fields the
claim lists as exhaustive. -/
theorem quick_stats_fields_cx :
    (runMonitor Option.none Option.none [] "u" "t" []
        { username := "u", entries := [], last_updated := Option.none } 100 []).map
      (fun o => o.stats.map Prod.fst) =
      Except.ok ["username", "followers", "following", "posts", "last_updated",
        "is_private", "is_verified", "method", "profile_pic_url", "profile_pic_url_hd",
        "full_name", "bio"] ∧
    "full_name" ∉ claimedQuickStatsFields ∧
    "bio" ∉ claimedQuickStatsFields :=
  ⟨rfl, by decide, by decide⟩

/-- C9 amended: for every run, the persisted `quick_stats.json` projection
contains exactly the ten claimed fields plus `full_name` and `bio`, in
construction order. -/
theorem quick_stats_fields_amended
    (auth anon : Option Snapshot) (friendEntries : List String)
    (target_user now : String) (priorSummary : PyDict) (priorHistory : HistoryFile)
    (history_keep : Int) (priorChangesLog : List Changes) (out : RunOutput)
    (h : runMonitor auth anon friendEntries target_user now priorSummary priorHistory
        history_keep priorChangesLog = Except.ok out) :
    out.stats.map Prod.fst = claimedQuickStatsFields ++ ["full_name", "bio"] := by
  unfold runMonitor at h
  cases hdet : detectChanges now
      (snapshotToDict (chooseProfile auth anon target_user) now target_user) priorSummary with
  | error e =>
    rw [hdet] at h
    exact Except.noConfusion h
  | ok changes0 =>
    rw [hdet] at h
    rw [Except.ok.injEq] at h
    subst h
    dsimp only
    simp [quickStatsDict, claimedQuickStatsFields]

theorem quick_stats_fields_amended_witness :
    ∃ out,
      runMonitor Option.none Option.none [] "u" "t" []
          { username := "u", entries := [], last_updated := Option.none } 100 [] =
        Except.ok out ∧
      out.stats.map Prod.fst = claimedQuickStatsFields ++ ["full_name", "bio"] :=
  ⟨_, rfl, quick_stats_fields_amended Option.none Option.none [] "u" "t" []
    { username := "u", entries := [], last_updated := Option.none } 100 [] _ rfl⟩

/-- C10: on every run that detects changes, the final ChangeSet is appended
to `changes_log.json` and the entries list is truncated to the 50 most
recent entries, oldest evicted first — a fixed cap independent of the
configured history retention count. -/
theorem changes_log_capped
    (auth anon : Option Snapshot) (friendEntries : List String)
    (target_user now : String) (priorSummary : PyDict) (priorHistory : HistoryFile)
    (history_keep : Int) (priorChangesLog : List Changes) (out : RunOutput)
    (h : runMonitor auth anon friendEntries target_user now priorSummary priorHistory
        history_keep priorChangesLog = Except.ok out)
    (hc : out.summary.changes.has_changes = true) :
    out.changesLog = some (pyTailSlice 50 (priorChangesLog ++ [out.summary.changes])) ∧
    pyTailSlice 50 (priorChangesLog ++ [out.summary.changes]) =
      (priorChangesLog ++ [out.summary.changes]).drop (priorChangesLog.length + 1 - 50) ∧
    (pyTailSlice 50 (priorChangesLog ++ [out.summary.changes])).length ≤ 50 ∧
    (∀ hk2 out2,
      runMonitor auth anon friendEntries target_user now priorSummary priorHistory
          hk2 priorChangesLog = Except.ok out2 →
      out2.changesLog = out.changesLog) := by
  unfold runMonitor at h
  cases hdet : detectChanges now
      (snapshotToDict (chooseProfile auth anon target_user) now target_user) priorSummary with
  | error e =>
    rw [hdet] at h
    exact Except.noConfusion h
  | ok changes0 =>
    rw [hdet] at h
    rw [Except.ok.injEq] at h
    subst h
    dsimp only at hc ⊢
    refine ⟨by rw [hc]; simp, ?_, ?_, ?_⟩
    · rw [pyTailSlice_of_pos 50 (by decide)]
      congr 1
      simp
    · have := pyTailSlice_length_le 50 (by decide)
        (priorChangesLog ++ [applyFriendEntries auth anon target_user friendEntries changes0])
      simpa using this
    · intro hk2 out2 h2
      unfold runMonitor at h2
      rw [hdet] at h2
      rw [Except.ok.injEq] at h2
      subst h2
      rfl

theorem changes_log_capped_witness :
    ∃ out,
      runMonitor Option.none Option.none [] "u" "t" []
          { username := "u", entries := [], last_updated := Option.none } 100 [] =
        Except.ok out ∧
      out.changesLog = some (pyTailSlice 50 ([] ++ [out.summary.changes])) :=
  ⟨_, rfl, (changes_log_capped Option.none Option.none [] "u" "t" []
    { username := "u", entries := [], last_updated := Option.none } 100 [] _ rfl rfl).1⟩

/-- C2: every write of the three per-handle artifacts goes through
`write_json_atomic` — full content to a temporary path, then a rename —
so at every intermediate (crash) point of the persistence phase each
destination file holds either its prior content (or is absent, if it was
absent) or the new complete content, never a partial write. -/
theorem atomic_artifact_writes (cs cm ch : FileContent) (d s : Disk3)
    (hs : s ∈ persistStates cs cm ch d) :
    (s.stats.dest = d.stats.dest ∨ s.stats.dest = some cs) ∧
    (s.summary.dest = d.summary.dest ∨ s.summary.dest = some cm) ∧
    (s.history.dest = d.history.dest ∨ s.history.dest = some ch) := by
  unfold persistStates at hs
  rcases List.mem_append.mp hs with hsAB | hsC
  · rcases List.mem_append.mp hsAB with hsA | hsB
    · rcases List.mem_map.mp hsA with ⟨f, hf, rfl⟩
      exact ⟨writeStates_dest cs d.stats f hf, Or.inl rfl, Or.inl rfl⟩
    · rcases List.mem_map.mp hsB with ⟨f, hf, rfl⟩
      exact ⟨Or.inr rfl, writeStates_dest cm d.summary f hf, Or.inl rfl⟩
  · rcases List.mem_map.mp hsC with ⟨f, hf, rfl⟩
    exact ⟨Or.inr rfl, Or.inr rfl, writeStates_dest ch d.history f hf⟩

theorem atomic_artifact_writes_witness :
    ({ stats := { dest := some [7], tmp := Option.none },
       summary := { dest := Option.none, tmp := some [] },
       history := { dest := Option.none, tmp := Option.none } } : Disk3) ∈
      persistStates [7] [8] [9]
        { stats := { dest := Option.none, tmp := Option.none },
          summary := { dest := Option.none, tmp := Option.none },
          history := { dest := Option.none, tmp := Option.none } } ∧
    ((some [7] = (Option.none : Option FileContent) ∨ some [7] = some [7]) ∧
     ((Option.none : Option FileContent) = Option.none ∨
       (Option.none : Option FileContent) = some [8]) ∧
     ((Option.none : Option FileContent) = Option.none ∨
       (Option.none : Option FileContent) = some [9])) :=
  ⟨by decide, atomic_artifact_writes [7] [8] [9]
    { stats := { dest := Option.none, tmp := Option.none },
      summary := { dest := Option.none, tmp := Option.none },
      history := { dest := Option.none, tmp := Option.none } }
    { stats := { dest := some [7], tmp := Option.none },
      summary := { dest := Option.none, tmp := some [] },
      history := { dest := Option.none, tmp := Option.none } } (by decide)⟩
